import Mathlib

/-!
# Verification of `store_code` (src/cli/src/modules/cw/ops.rs)

Shallow embedding of the store-code deployment pipeline of this repository:
key resolution (`from_mnemonic`, lines 172-182; the raw-private-key arm of
`store_code`, lines 95-102), artifact reading (`read_wasm`, lines 184-203),
fee/message construction, the chain interaction, the protobuf SignDoc
serialization performed by the `cosmrs` calls, and the two-phase
(check_tx / deliver_tx) broadcast interpretation (lines 148-166).

External library behaviour (bip32 seed derivation, secp256k1 key parsing,
bech32 account ids, denom/chain-id parsing, signing) is abstracted as a
bundle of function parameters (`ExtCrypto`); the protobuf encoding of the
transaction (what `cosmrs`/`prost` produce for `SignDoc::new`) is modelled
concretely, field by field, following the proto3 schemas
`cosmos.tx.v1beta1.{TxBody, AuthInfo, SignerInfo, Fee, ModeInfo, SignDoc}`,
`cosmos.base.v1beta1.Coin`, `cosmwasm.wasm.v1.MsgStoreCode` and
`google.protobuf.Any`, including proto3 skipping of default-valued scalar
fields. The filesystem and the node are modelled as explicit environments;
Rust `panic!`/`unwrap` failures are a distinct `Outcome.panic` constructor,
separate from returned `anyhow` errors (`Outcome.err`).
-/

/-! ## Protobuf primitives (prost wire format)

Bytes are `Nat` (values < 256 in every produced list). `varint` is the
base-128 LEB128 encoding used for lengths, tags and integer fields; it is
written with structural fuel so that the kernel can evaluate it.
-/

/-- One step of LEB128: with enough fuel, emits base-128 digits, least
significant first, continuation bit (+128) on every byte but the last. -/
def varintAux : Nat → Nat → List Nat
  | 0, _ => []
  | fuel + 1, n => if n < 128 then [n] else (n % 128 + 128) :: varintAux fuel (n / 128)

/-- LEB128 encoding of a natural number (`n + 1` fuel always suffices). -/
def varint (n : Nat) : List Nat := varintAux (n + 1) n

/-- A length-delimited protobuf field: tag byte, LEB128 length, payload. -/
def lenDelim (tag : Nat) (bs : List Nat) : List Nat := tag :: (varint bs.length ++ bs)

/-- proto3 scalar `bytes`/`string` field: skipped when the payload is empty. -/
def encScalarF (tag : Nat) (bs : List Nat) : List Nat :=
  if bs = [] then [] else lenDelim tag bs

/-- proto3 scalar integer field: skipped when the value is zero. -/
def encIntF (tag : Nat) (n : Nat) : List Nat :=
  if n = 0 then [] else tag :: varint n

/-- An embedded (message-typed) field: always emitted when present. -/
def encMsgF (tag : Nat) (bs : List Nat) : List Nat := lenDelim tag bs

/-- UTF-8-as-codepoint bytes of a string (all strings appearing in the
transaction are ASCII, where codepoints and UTF-8 bytes agree). -/
def strBytes (s : String) : List Nat := s.toList.map Char.toNat

/-- proto3 string field. -/
def encStrF (tag : Nat) (s : String) : List Nat := encScalarF tag (strBytes s)

/-- Base-10 digits of `n`, least significant first, with structural fuel. -/
def decDigitsAux : Nat → Nat → List Nat
  | 0, _ => []
  | _ + 1, 0 => []
  | fuel + 1, n => n % 10 :: decDigitsAux fuel (n / 10)

/-- ASCII decimal rendering of a natural number (Rust `u64`/`u128` `Display`),
used for the `amount` string of `cosmos.base.v1beta1.Coin`. -/
def decStr (n : Nat) : List Nat :=
  if n = 0 then [48] else ((decDigitsAux (n + 1) n).map (fun d => d + 48)).reverse

/-- Value of a least-significant-first base-10 digit list. -/
def decValAux : List Nat → Nat
  | [] => 0
  | d :: ds => d + 10 * decValAux ds

/-- Left inverse of `decStr`: strip the ASCII offset and re-fold the digits. -/
def decStrVal (l : List Nat) : Nat := decValAux (l.reverse.map (fun d => d - 48))

/-! ## Transaction data (cosmrs types used by `store_code`) and encoders -/

/-- `cosmwasm.wasm.v1.AccessConfig` (only ever absent in this code path). -/
structure AccessConfig where
  permission : Nat
  address : String
  deriving Repr, DecidableEq

/-- `cosmrs::cosmwasm::MsgStoreCode` (ops.rs lines 117-121). -/
structure MsgStoreCode where
  sender : String
  wasm_byte_code : List Nat
  instantiate_permission : Option AccessConfig
  deriving Repr, DecidableEq

/-- `google.protobuf.Any`: type url and encoded value. -/
structure AnyMsg where
  type_url : String
  value : List Nat
  deriving Repr, DecidableEq

/-- `cosmrs::tx::Body` as built by `tx::Body::new` (ops.rs line 132). -/
structure TxBody where
  messages : List AnyMsg
  memo : String
  timeout_height : Nat
  deriving Repr, DecidableEq

/-- `cosmrs::Coin` (ops.rs lines 111-114); `amount` is proto-encoded as a
decimal string. -/
structure Coin where
  denom : String
  amount : Nat
  deriving Repr, DecidableEq

/-- `cosmrs::tx::Fee`; `Fee::from_amount_and_gas` sets one coin, no payer,
no granter (ops.rs line 115). -/
structure Fee where
  amount : List Coin
  gas_limit : Nat
  payer : Option String
  granter : Option String
  deriving Repr, DecidableEq

/-- One signer of `cosmos.tx.v1beta1.AuthInfo`; `SignerInfo::single_direct`
fixes the mode to `SIGN_MODE_DIRECT` (ops.rs line 133). -/
structure SignerInfo where
  public_key : Option (List Nat)
  sequence : Nat
  deriving Repr, DecidableEq

/-- `cosmos.tx.v1beta1.AuthInfo`. -/
structure AuthInfo where
  signer_infos : List SignerInfo
  fee : Fee
  deriving Repr, DecidableEq

/-- The four components that `cosmrs::tx::SignDoc::new` serializes
(ops.rs lines 134-140). -/
structure SignDocData where
  body_bytes : List Nat
  auth_info_bytes : List Nat
  chain_id : String
  account_number : Nat
  deriving Repr, DecidableEq

/-- `cosmwasm.wasm.v1.AccessConfig` encoding: permission enum (1), address (2). -/
def encAccessConfig (a : AccessConfig) : List Nat :=
  encIntF 8 a.permission ++ encStrF 0x12 a.address

/-- `cosmwasm.wasm.v1.MsgStoreCode` encoding: sender (1), wasm_byte_code (2),
instantiate_permission (5, omitted when `none`). -/
def encMsgStoreCode (m : MsgStoreCode) : List Nat :=
  encStrF 0x0a m.sender ++ encScalarF 0x12 m.wasm_byte_code ++
    (match m.instantiate_permission with
      | none => []
      | some a => encMsgF 0x2a (encAccessConfig a))

/-- `google.protobuf.Any` encoding: type_url (1), value (2). -/
def encAnyMsg (a : AnyMsg) : List Nat :=
  encStrF 0x0a a.type_url ++ encScalarF 0x12 a.value

/-- `cosmos.tx.v1beta1.TxBody` encoding: repeated messages (1), memo (2),
timeout_height (3). -/
def encTxBody (b : TxBody) : List Nat :=
  (b.messages.map (fun m => encMsgF 0x0a (encAnyMsg m))).flatten ++
    encStrF 0x12 b.memo ++ encIntF 0x18 b.timeout_height

/-- `cosmos.base.v1beta1.Coin` encoding: denom (1), amount as decimal string (2). -/
def encCoin (c : Coin) : List Nat :=
  encStrF 0x0a c.denom ++ encScalarF 0x12 (decStr c.amount)

/-- `cosmos.tx.v1beta1.Fee` encoding: repeated amount (1), gas_limit (2),
payer (3), granter (4). -/
def encFee (f : Fee) : List Nat :=
  (f.amount.map (fun c => encMsgF 0x0a (encCoin c))).flatten ++
    encIntF 0x10 f.gas_limit ++ encStrF 0x1a (f.payer.getD "") ++
    encStrF 0x22 (f.granter.getD "")

/-- The secp256k1 public key wrapped as `Any` (value is the
`cosmos.crypto.secp256k1.PubKey` message: key bytes in field 1). -/
def secpPubKeyAny (pk : List Nat) : AnyMsg :=
  ⟨"/cosmos.crypto.secp256k1.PubKey", encScalarF 0x0a pk⟩

/-- `ModeInfo { single { mode: SIGN_MODE_DIRECT } }` encoding. -/
def modeInfoDirect : List Nat := encMsgF 0x0a (encIntF 8 1)

/-- `cosmos.tx.v1beta1.SignerInfo` encoding: public_key (1), mode_info (2),
sequence (3). -/
def encSignerInfo (si : SignerInfo) : List Nat :=
  (match si.public_key with
    | none => []
    | some pk => encMsgF 0x0a (encAnyMsg (secpPubKeyAny pk))) ++
    encMsgF 0x12 modeInfoDirect ++ encIntF 0x18 si.sequence

/-- `cosmos.tx.v1beta1.AuthInfo` encoding: repeated signer_infos (1), fee (2). -/
def encAuthInfo (a : AuthInfo) : List Nat :=
  (a.signer_infos.map (fun si => encMsgF 0x0a (encSignerInfo si))).flatten ++
    encMsgF 0x12 (encFee a.fee)

/-- `cosmos.tx.v1beta1.SignDoc` serialization — the exact bytes that are
signed: body_bytes (1), auth_info_bytes (2), chain_id (3), account_number (4). -/
def signDocBytes (d : SignDocData) : List Nat :=
  encScalarF 0x0a d.body_bytes ++ encScalarF 0x12 d.auth_info_bytes ++
    encStrF 0x1a d.chain_id ++ encIntF 0x20 d.account_number

/-! ## The operation environment

`store_code` is `Result`-valued Rust with filesystem and network effects.
The embedding passes those effects in explicitly: the account map and chain
parameters come from the global config, the filesystem is a path-to-bytes
association list, and the node's answers (account query, broadcast commit
response) are an environment record. The outcome distinguishes returned
`anyhow` errors from `unwrap`/panic crashes, and a trace of events records
key derivations, file reads and network calls in program order.
-/

/-- Result of a Rust computation: `ok`, a returned error, or a panic
(`unwrap` on a failed `Result`/`Option`). -/
inductive Outcome (α : Type) where
  | ok : α → Outcome α
  | err : String → Outcome α
  | panic : String → Outcome α
  deriving Repr, DecidableEq

/-- Observable effects of a `store_code` run, in program order. -/
inductive Event where
  | keyDerivation : Event
  | fileRead : String → Event
  | networkCall : String → Event
  deriving Repr, DecidableEq

/-- `crate::framework::config::Account` as used by ops.rs lines 97-99:
a mnemonic phrase or a raw private key string. -/
inductive Account where
  | fromMnemonic : String → Account
  | fromPrivateKey : String → Account
  deriving Repr, DecidableEq

/-- The global config fields read by `store_code` (ops.rs lines 90-95).
`account_hrp` is the source's `account_prefix` (the bech32 human-readable
part). -/
structure GlobalConfig where
  account_hrp : String
  denom : String
  derivation_path : String
  accounts : List (String × Account)
  deriving Repr, DecidableEq

/-- On-chain account state fetched before building the transaction
(ops.rs lines 127-130, 133, 138). -/
structure BaseAccount where
  account_number : Nat
  sequence : Nat
  deriving Repr, DecidableEq

/-- One ABCI phase result (`check_tx` / `deliver_tx`): code 0 is success,
any other code is failure. Only the fields the code inspects or reports
(code, log) are modelled. -/
structure TxAbciResult where
  code : Nat
  log : String
  deriving Repr, DecidableEq

/-- `tx_commit::Response` (ops.rs line 125): both phase results and the
transaction hash. -/
structure TxCommitResponse where
  check_tx : TxAbciResult
  deliver_tx : TxAbciResult
  hash : String
  deriving Repr, DecidableEq

/-- The node's behaviour for one run: the answer to the account query
(`none` = query failed) and to `broadcast_commit` (`none` = transport
error, which the code unwraps). -/
structure ChainEnv where
  account : Option BaseAccount
  broadcast : Option TxCommitResponse
  deriving Repr, DecidableEq

/-- Semantics of the external crypto/parsing libraries used by ops.rs,
abstracted as total/partial functions: bip32 mnemonic-to-seed and path
derivation, secp256k1 key parsing, public key and bech32 account id
derivation, `Denom`/`chain::Id` parsing, and signing. -/
structure ExtCrypto where
  parseMnemonic : String → Option (List Nat)
  parsePath : String → Option (List Nat)
  deriveKey : List Nat → List Nat → Option (List Nat)
  skFromBytes : List Nat → Option (List Nat)
  publicKey : List Nat → List Nat
  accountId : List Nat → String → Option String
  validDenom : String → Bool
  validChainId : String → Bool
  sign : List Nat → List Nat → List Nat

/-- Association-list lookup with string keys (the account `HashMap` and the
filesystem). -/
def lookupBy {β : Type} : List (String × β) → String → Option β
  | [], _ => none
  | (k, v) :: rest, key => if key = k then some v else lookupBy rest key

/-- ops.rs lines 172-182: seed from the mnemonic (empty passphrase), then
derive along the path. `Mnemonic::new` and the path parse propagate as
errors (`?`); a failure of `XPrv::derive_from_path` is `.unwrap()`ed, i.e. a
panic. -/
def from_mnemonic (c : ExtCrypto) (phrase derivation_path : String) :
    Outcome (List Nat) :=
  match c.parseMnemonic phrase with
  | none => .err "invalid mnemonic phrase"
  | some seed =>
    match c.parsePath derivation_path with
    | none => .err "invalid derivation path"
    | some path =>
      match c.deriveKey seed path with
      | none => .panic "derive_from_path failed (unwrap)"
      | some sk => .ok sk

/-- ops.rs lines 95-102: resolve the signer account alias to a signing key.
An unknown alias is `bail!`ed with a message naming the alias; a raw
private key goes through `SigningKey::from_bytes(..).unwrap()` — a panic on
invalid bytes (the source marks it `// TODO: need fix`). The second
component records whether key material was derived. -/
def resolveSigner (c : ExtCrypto) (cfg : GlobalConfig) (signer_account : String) :
    Outcome (List Nat) × List Event :=
  match lookupBy cfg.accounts signer_account with
  | none => (.err ("signer account: `" ++ signer_account ++ "` is not defined"), [])
  | some (.fromMnemonic mnemonic) =>
      (from_mnemonic c mnemonic cfg.derivation_path, [.keyDerivation])
  | some (.fromPrivateKey private_key) =>
      match c.skFromBytes (strBytes private_key) with
      | none => (.panic "SigningKey::from_bytes failed (unwrap)", [.keyDerivation])
      | some sk => (.ok sk, [.keyDerivation])

/-- ops.rs lines 188-192: `<root>/artifacts/<contract_name>.wasm`. -/
def wasmPath (root contract_name : String) : String :=
  root ++ "/artifacts/" ++ contract_name ++ ".wasm"

/-- ops.rs lines 184-203: open and read the artifact; absence produces the
context error naming the path (the trailing stray backtick is the source's). -/
def read_wasm (files : List (String × List Nat)) (root contract_name : String) :
    Outcome (List Nat) :=
  match lookupBy files (wasmPath root contract_name) with
  | none => .err ("`" ++ wasmPath root contract_name ++
      "` not found, please build and optimize the contract before store code`")
  | some bs => .ok bs

/-- ops.rs lines 117-121: the store-code message for this sender and wasm,
instantiate_permission left unset. -/
def built_msg (sender : String) (wasm : List Nat) : MsgStoreCode :=
  ⟨sender, wasm, none⟩

/-- `.to_any()` (ops.rs line 122): wrap the encoded message with its type url. -/
def msg_any (m : MsgStoreCode) : AnyMsg :=
  ⟨"/cosmwasm.wasm.v1.MsgStoreCode", encMsgStoreCode m⟩

/-- `tx::Body::new(vec![msg], "", timeout_height)` (ops.rs line 132). -/
def built_body (m : AnyMsg) (timeout_height : Nat) : TxBody :=
  ⟨[m], "", timeout_height⟩

/-- `Fee::from_amount_and_gas(Coin { amount, denom }, gas_limit)`
(ops.rs lines 111-115). -/
def mkFee (denom : String) (gas_amount gas_limit : Nat) : Fee :=
  ⟨[⟨denom, gas_amount⟩], gas_limit, none, none⟩

/-- `SignerInfo::single_direct(Some(pub), sequence).auth_info(fee)`
(ops.rs line 133). -/
def built_auth_info (pub : List Nat) (sequence : Nat) (fee : Fee) : AuthInfo :=
  ⟨[⟨some pub, sequence⟩], fee⟩

/-- Rendering of one ABCI phase result as it appears in the `{:?}` error
output: the code and the log. -/
def reprAbci (r : TxAbciResult) : String :=
  "TxResult \x7b code: " ++ toString r.code ++ ", log: " ++ r.log ++ " \x7d"

/-- ops.rs lines 148-166: interpret the two-phase commit response.
`check_tx` failure is reported first (whatever `deliver_tx` says), then
`deliver_tx` failure; only both codes 0 is success. -/
def check_broadcast (resp : TxCommitResponse) : Outcome TxCommitResponse :=
  if resp.check_tx.code ≠ 0 then
    .err ("check_tx failed: " ++ reprAbci resp.check_tx)
  else if resp.deliver_tx.code ≠ 0 then
    .err ("deliver_tx failed: " ++ reprAbci resp.deliver_tx)
  else .ok resp

/-- The SignDoc bytes `store_code` signs, as a function of everything that
feeds them (ops.rs lines 132-140): one store-code message from this sender
and wasm, empty memo, this timeout; single direct signer with this public
key and sequence; fee from this denom/amount/gas; chain id and account
number bound in the SignDoc. -/
def storeCodeSignDocBytes (pub : List Nat) (sender : String) (wasm : List Nat)
    (denom : String) (gas_amount gas_limit sequence timeout_height : Nat)
    (chain_id : String) (account_number : Nat) : List Nat :=
  signDocBytes
    ⟨encTxBody (built_body (msg_any (built_msg sender wasm)) timeout_height),
     encAuthInfo (built_auth_info pub sequence (mkFee denom gas_amount gas_limit)),
     chain_id, account_number⟩

/-- Everything observable about one `store_code` run: the returned outcome,
the effect trace, the transaction body and SignDoc that were built (when
the run got that far), and the commit response in hand at the end. -/
structure StoreRun where
  outcome : Outcome Unit
  events : List Event
  builtBody : Option TxBody
  builtSignDoc : Option SignDocData
  response : Option TxCommitResponse
  deriving Repr, DecidableEq

/-- ops.rs lines 81-170, in source order: resolve the signer key
(lines 95-102), take its public key and bech32 account id — `.unwrap()`
(lines 104-105); read the wasm artifact (line 107); parse the fee denom —
`.unwrap()` (line 113) — and build the fee (line 115) and the store-code
message (lines 117-123); then, inside `block_on`: query the account
(lines 127-130), build body and auth info (lines 132-133), parse the chain
id — `.unwrap()` — and form the SignDoc (lines 134-140), sign (line 141),
poll for the first block (line 144), broadcast-commit — `.unwrap()`
(line 146) — and interpret the two phases (lines 148-160); on success poll
for the transaction (line 164) and return `Ok(())` (line 169), discarding
the response (`let _: Response`, line 125). -/
def storeCode (c : ExtCrypto) (cfg : GlobalConfig)
    (files : List (String × List Nat)) (root : String) (chain : ChainEnv)
    (contract_name chain_id : String)
    (gas_amount gas_limit timeout_height : Nat)
    (signer_account : String) : StoreRun :=
  match resolveSigner c cfg signer_account with
  | (.err m, evs) => ⟨.err m, evs, none, none, none⟩
  | (.panic m, evs) => ⟨.panic m, evs, none, none, none⟩
  | (.ok signer_priv, evs) =>
    let signer_pub := c.publicKey signer_priv
    match c.accountId signer_pub cfg.account_hrp with
    | none => ⟨.panic "account_id failed (unwrap)", evs, none, none, none⟩
    | some signer_account_id =>
      match read_wasm files root contract_name with
      | .err m =>
          ⟨.err m, evs ++ [.fileRead (wasmPath root contract_name)], none, none, none⟩
      | .panic m => ⟨.panic m, evs, none, none, none⟩
      | .ok wasm =>
        let evs := evs ++ [.fileRead (wasmPath root contract_name)]
        if c.validDenom cfg.denom then
          let fee := mkFee cfg.denom gas_amount gas_limit
          let msgA := msg_any (built_msg signer_account_id wasm)
          let evs := evs ++ [.networkCall "account_query"]
          match chain.account with
          | none => ⟨.err "Account can't be initialized", evs, none, none, none⟩
          | some acc =>
            let tx_body := built_body msgA timeout_height
            let auth_info := built_auth_info signer_pub acc.sequence fee
            if c.validChainId chain_id then
              let sign_doc : SignDocData :=
                ⟨encTxBody tx_body, encAuthInfo auth_info, chain_id,
                 acc.account_number⟩
              let _tx_raw := c.sign signer_priv (signDocBytes sign_doc)
              let evs := evs ++ [.networkCall "poll_first_block"]
              match chain.broadcast with
              | none =>
                  ⟨.panic "broadcast_commit failed (unwrap)",
                   evs ++ [.networkCall "broadcast"], some tx_body,
                   some sign_doc, none⟩
              | some resp =>
                let evs := evs ++ [.networkCall "broadcast"]
                match check_broadcast resp with
                | .err m => ⟨.err m, evs, some tx_body, some sign_doc, some resp⟩
                | .panic m =>
                    ⟨.panic m, evs, some tx_body, some sign_doc, some resp⟩
                | .ok r =>
                    ⟨.ok (), evs ++ [.networkCall "poll_tx"], some tx_body,
                     some sign_doc, some r⟩
            else
              ⟨.panic "chain id parse failed (unwrap)", evs, some tx_body,
               none, none⟩
        else
          ⟨.panic "denom parse failed (unwrap)", evs, none, none, none⟩

/-! ## Concrete instances used by witnesses and counterexamples -/

/-- A small concrete stand-in for the external libraries, used to evaluate
the theorems on closed inputs: one accepted mnemonic and path, 32-byte raw
keys, a fixed bech32-ish account id per prefix, denoms of length ≥ 3,
nonempty chain ids. -/
def testCrypto : ExtCrypto where
  parseMnemonic := fun s => if s = "valid mnemonic" then some [7] else none
  parsePath := fun s => if s = "m/44/118/0/0/0" then some [44] else none
  deriveKey := fun seed path => some (seed ++ path)
  skFromBytes := fun bs => if bs.length = 32 then some bs else none
  publicKey := fun sk => 4 :: sk
  accountId := fun _ hrp => some (hrp ++ "1qxyz")
  validDenom := fun s => decide (3 ≤ s.length)
  validChainId := fun s => decide (s ≠ "")
  sign := fun sk bytes => sk ++ bytes

/-- Accounts for the concrete runs: a mnemonic signer and a raw-key signer
whose key string is not 32 bytes. -/
def testAccounts : List (String × Account) :=
  [("alice", .fromMnemonic "valid mnemonic"), ("bob", .fromPrivateKey "shortkey")]

/-- Global config for the concrete runs. -/
def testConfig : GlobalConfig :=
  ⟨"wasm", "uatom", "m/44/118/0/0/0", testAccounts⟩

/-- A filesystem holding the expected artifact. -/
def testFiles : List (String × List Nat) :=
  [("/proj/artifacts/counter.wasm", [0, 97, 115, 109])]

/-- A healthy node: the account exists, both phases succeed. -/
def testChain : ChainEnv :=
  ⟨some ⟨5, 9⟩, some ⟨⟨0, ""⟩, ⟨0, ""⟩, "CAFE"⟩⟩

/-! ## Injectivity of the wire encoding

The SignDoc-sensitivity claim reduces to: the encoding combinators are
prefix-determined (a field followed by anything determines the field and
the remainder), LEB128 is prefix-free, and the string/decimal renderings
are injective.
-/

/-- Fuel does not matter once it exceeds the argument. -/
theorem varintAux_stable : ∀ n f g, n < f → n < g → varintAux f n = varintAux g n := by
  intro n
  induction n using Nat.strong_induction_on with
  | _ n ih =>
    intro f g hf hg
    match f, g with
    | f + 1, g + 1 =>
      simp only [varintAux]
      split
      · rfl
      · have hdiv : n / 128 < n := Nat.div_lt_self (by omega) (by omega)
        rw [ih (n / 128) hdiv (f) (g) (by omega) (by omega)]

/-- The defining recursion of `varint`, free of fuel. -/
theorem varint_eq (n : Nat) :
    varint n = if n < 128 then [n] else (n % 128 + 128) :: varint (n / 128) := by
  show varintAux (n + 1) n = _
  simp only [varintAux]
  split
  · rfl
  · rw [varintAux_stable (n / 128) n (n / 128 + 1)
      (Nat.div_lt_self (by omega) (by omega)) (Nat.lt_succ_self _)]
    rfl

/-- A LEB128 encoding is never empty. -/
theorem varint_ne_nil (n : Nat) : varint n ≠ [] := by
  rw [varint_eq]; split <;> simp

/-- LEB128 is prefix-free: equal concatenations split at the same point. -/
theorem varint_append_inj :
    ∀ a b s t, varint a ++ s = varint b ++ t → a = b ∧ s = t := by
  intro a
  induction a using Nat.strong_induction_on with
  | _ a ih =>
    intro b s t h
    rw [varint_eq a, varint_eq b] at h
    by_cases ha : a < 128 <;> by_cases hb : b < 128 <;>
      simp only [ha, hb, if_true, if_false, ite_true, ite_false,
        List.cons_append, List.append_assoc, List.cons.injEq] at h
    · exact ⟨h.1, h.2⟩
    · omega
    · omega
    · obtain ⟨h1, h2⟩ := h
      obtain ⟨hq, hs⟩ := ih (a / 128) (Nat.div_lt_self (by omega) (by omega))
        (b / 128) s t h2
      exact ⟨by omega, hs⟩

/-- LEB128 is injective. -/
theorem varint_inj {a b : Nat} (h : varint a = varint b) : a = b :=
  (varint_append_inj a b [] [] (by simpa using h)).1

/-- A length-delimited field followed by anything determines the payload
and the remainder. -/
theorem lenDelim_append_inj {tag : Nat} {b1 b2 s t : List Nat}
    (h : lenDelim tag b1 ++ s = lenDelim tag b2 ++ t) : b1 = b2 ∧ s = t := by
  simp only [lenDelim, List.cons_append, List.cons.injEq, List.append_assoc] at h
  obtain ⟨hlen, happ⟩ := varint_append_inj _ _ _ _ h.2
  exact List.append_inj happ hlen

/-- A length-delimited field is injective in its payload. -/
theorem lenDelim_inj {tag : Nat} {b1 b2 : List Nat}
    (h : lenDelim tag b1 = lenDelim tag b2) : b1 = b2 :=
  (lenDelim_append_inj (s := []) (t := []) (by simpa using h)).1

/-- A scalar bytes/string field with a common continuation determines its
payload (the skipped-when-empty case is settled by length counting). -/
theorem encScalarF_append_cancel {tag : Nat} {b1 b2 s : List Nat}
    (h : encScalarF tag b1 ++ s = encScalarF tag b2 ++ s) : b1 = b2 := by
  by_cases h1 : b1 = [] <;> by_cases h2 : b2 = [] <;>
    simp only [encScalarF, h1, h2, if_true, if_false, ite_true, ite_false,
      List.nil_append] at h
  · rw [h1, h2]
  · have hl := congrArg List.length h
    simp [lenDelim] at hl
    omega
  · have hl := congrArg List.length h
    simp [lenDelim] at hl
    omega
  · exact (lenDelim_append_inj h).1

/-- A scalar bytes/string field is injective in its payload. -/
theorem encScalarF_inj {tag : Nat} {b1 b2 : List Nat}
    (h : encScalarF tag b1 = encScalarF tag b2) : b1 = b2 :=
  encScalarF_append_cancel (s := []) (by simpa using h)

/-- An integer field with a common continuation determines its value. -/
theorem encIntF_append_cancel {tag : Nat} {n1 n2 : Nat} {s : List Nat}
    (h : encIntF tag n1 ++ s = encIntF tag n2 ++ s) : n1 = n2 := by
  by_cases h1 : n1 = 0 <;> by_cases h2 : n2 = 0 <;>
    simp only [encIntF, h1, h2, if_true, if_false, ite_true, ite_false,
      List.nil_append, List.cons_append, List.cons.injEq] at h
  · omega
  · have hl := congrArg List.length h
    simp at hl
    omega
  · have hl := congrArg List.length h
    simp at hl
    omega
  · exact (varint_append_inj _ _ _ _ h.2).1

/-- An integer field is injective in its value. -/
theorem encIntF_inj {tag : Nat} {n1 n2 : Nat}
    (h : encIntF tag n1 = encIntF tag n2) : n1 = n2 :=
  encIntF_append_cancel (s := []) (by simpa using h)

/-- Codepoints determine characters. -/
theorem char_toNat_inj {c d : Char} (h : c.toNat = d.toNat) : c = d := by
  have := congrArg Char.ofNat h
  rwa [Char.ofNat_toNat, Char.ofNat_toNat] at this

/-- The byte rendering of a string is injective. -/
theorem strBytes_inj {s1 s2 : String} (h : strBytes s1 = strBytes s2) : s1 = s2 := by
  have hl : s1.toList = s2.toList :=
    List.map_injective_iff.mpr (fun _ _ => char_toNat_inj) h
  have := congrArg (fun l => String.mk l) hl
  simpa using this

/-- The digit fold inverts the fuelled digit expansion. -/
theorem decValAux_decDigitsAux :
    ∀ f n, n < f → decValAux (decDigitsAux f n) = n := by
  intro f
  induction f with
  | zero => omega
  | succ f ih =>
    intro n hn
    match n with
    | 0 => rfl
    | n + 1 =>
      simp only [decDigitsAux, decValAux]
      rw [ih ((n + 1) / 10) (by omega)]
      omega

/-- `decStrVal` is a left inverse of the decimal rendering. -/
theorem decStrVal_decStr (n : Nat) : decStrVal (decStr n) = n := by
  by_cases h : n = 0
  · simp [decStr, decStrVal, h, decValAux]
  · simp only [decStr, decStrVal, h, ite_false, List.reverse_reverse,
      List.map_map]
    have hid : ((fun d => d - 48) ∘ fun d => d + 48) = id := by
      funext d; simp
    rw [hid, List.map_id]
    exact decValAux_decDigitsAux (n + 1) n (Nat.lt_succ_self n)

/-- The ASCII decimal rendering is injective. -/
theorem decStr_inj {a b : Nat} (h : decStr a = decStr b) : a = b := by
  rw [← decStrVal_decStr a, h, decStrVal_decStr]

/-- The body `store_code` builds is injective in the wasm payload (sender
and timeout fixed). -/
theorem encTxBody_wasm_inj (sender : String) (timeout_height : Nat)
    {w1 w2 : List Nat}
    (h : encTxBody (built_body (msg_any (built_msg sender w1)) timeout_height) =
         encTxBody (built_body (msg_any (built_msg sender w2)) timeout_height)) :
    w1 = w2 := by
  simp only [encTxBody, built_body, List.map_cons, List.map_nil,
    List.flatten_cons, List.flatten_nil, List.append_nil, encMsgF,
    List.append_assoc] at h
  have h2 := (lenDelim_append_inj h).1
  simp only [msg_any, encAnyMsg, List.append_assoc] at h2
  have h3 := encScalarF_inj (List.append_cancel_left h2)
  simp only [built_msg, encMsgStoreCode, List.append_nil] at h3
  exact encScalarF_inj (List.append_cancel_left h3)

/-- The auth info `store_code` builds is injective in the sequence number
(public key and fee fixed). -/
theorem encAuthInfo_seq_inj (pub : List Nat) (fee : Fee) {s1 s2 : Nat}
    (h : encAuthInfo (built_auth_info pub s1 fee) =
         encAuthInfo (built_auth_info pub s2 fee)) : s1 = s2 := by
  simp only [encAuthInfo, built_auth_info, List.map_cons, List.map_nil,
    List.flatten_cons, List.flatten_nil, List.append_nil, encMsgF,
    List.append_assoc] at h
  have h2 := (lenDelim_append_inj h).1
  simp only [encSignerInfo, List.append_assoc] at h2
  exact encIntF_inj (List.append_cancel_left (List.append_cancel_left h2))

/-- The auth info `store_code` builds is injective in the fee amount
(public key, sequence, denom and gas limit fixed). -/
theorem encAuthInfo_amount_inj (pub : List Nat) (seq : Nat) (denom : String)
    (gas_limit : Nat) {a1 a2 : Nat}
    (h : encAuthInfo (built_auth_info pub seq (mkFee denom a1 gas_limit)) =
         encAuthInfo (built_auth_info pub seq (mkFee denom a2 gas_limit))) :
    a1 = a2 := by
  simp only [encAuthInfo, built_auth_info, List.map_cons, List.map_nil,
    List.flatten_cons, List.flatten_nil, List.append_nil, encMsgF,
    List.append_assoc] at h
  have h2 := lenDelim_inj (List.append_cancel_left h)
  simp only [encFee, mkFee, List.map_cons, List.map_nil, List.flatten_cons,
    List.flatten_nil, List.append_nil, Option.getD_none, encStrF, strBytes,
    String.toList, List.map_nil, encScalarF, ite_true, List.append_assoc] at h2
  have h3 := (@lenDelim_append_inj 10 _ _ _ _
    (by simpa only [encMsgF] using h2)).1
  simp only [encCoin, List.append_assoc] at h3
  exact decStr_inj (encScalarF_inj (List.append_cancel_left h3))

/-! ## Claims -/

/-- C2: for every transaction built by `store_code`, changing any one of
the message (wasm) bytes, the fee amount, the sequence number, the chain
id, or the account number — all other inputs held fixed — yields a SignDoc
whose serialized bytes differ, so a signature over the old SignDoc is not
a signature over the new one. -/
theorem sign_doc_sensitivity (pub : List Nat) (sender : String)
    (wasm : List Nat) (denom : String)
    (gas_amount gas_limit sequence timeout_height : Nat) (chain_id : String)
    (account_number : Nat) :
    (∀ w, w ≠ wasm →
      storeCodeSignDocBytes pub sender w denom gas_amount gas_limit sequence
          timeout_height chain_id account_number ≠
        storeCodeSignDocBytes pub sender wasm denom gas_amount gas_limit
          sequence timeout_height chain_id account_number) ∧
    (∀ a, a ≠ gas_amount →
      storeCodeSignDocBytes pub sender wasm denom a gas_limit sequence
          timeout_height chain_id account_number ≠
        storeCodeSignDocBytes pub sender wasm denom gas_amount gas_limit
          sequence timeout_height chain_id account_number) ∧
    (∀ s, s ≠ sequence →
      storeCodeSignDocBytes pub sender wasm denom gas_amount gas_limit s
          timeout_height chain_id account_number ≠
        storeCodeSignDocBytes pub sender wasm denom gas_amount gas_limit
          sequence timeout_height chain_id account_number) ∧
    (∀ c, c ≠ chain_id →
      storeCodeSignDocBytes pub sender wasm denom gas_amount gas_limit
          sequence timeout_height c account_number ≠
        storeCodeSignDocBytes pub sender wasm denom gas_amount gas_limit
          sequence timeout_height chain_id account_number) ∧
    (∀ n, n ≠ account_number →
      storeCodeSignDocBytes pub sender wasm denom gas_amount gas_limit
          sequence timeout_height chain_id n ≠
        storeCodeSignDocBytes pub sender wasm denom gas_amount gas_limit
          sequence timeout_height chain_id account_number) := by
  refine ⟨?_, ?_, ?_, ?_, ?_⟩ <;> intro x hne heq <;> apply hne <;>
    simp only [storeCodeSignDocBytes, signDocBytes, List.append_assoc] at heq
  · exact encTxBody_wasm_inj sender timeout_height (encScalarF_append_cancel heq)
  · exact encAuthInfo_amount_inj pub sequence denom gas_limit
      (encScalarF_append_cancel (List.append_cancel_left heq))
  · exact encAuthInfo_seq_inj pub (mkFee denom gas_amount gas_limit)
      (encScalarF_append_cancel (List.append_cancel_left heq))
  · refine strBytes_inj
      (@encScalarF_append_cancel 0x1a (strBytes x) (strBytes chain_id)
        (encIntF 0x20 account_number) ?_)
    simpa only [encStrF] using
      List.append_cancel_left (List.append_cancel_left heq)
  · exact encIntF_inj
      (List.append_cancel_left (List.append_cancel_left (List.append_cancel_left heq)))

/-- C2 witness: concretely, two SignDocs differing only in the wasm byte
payload have different bytes. -/
theorem sign_doc_sensitivity_witness :
    storeCodeSignDocBytes [4, 7, 44] "wasm1qxyz" [1] "uatom" 100 200 9 0
        "chain-1" 5 ≠
      storeCodeSignDocBytes [4, 7, 44] "wasm1qxyz" [2] "uatom" 100 200 9 0
        "chain-1" 5 :=
  (sign_doc_sensitivity [4, 7, 44] "wasm1qxyz" [2] "uatom" 100 200 9 0
      "chain-1" 5).1 [1] (by decide)

/-- C1: for every broadcast commit response, `store_code`'s interpretation
(lines 148-166) reports a check_tx failure (with the check_tx code and
log) whenever check_tx's code is nonzero, regardless of deliver_tx;
reports a deliver_tx failure (with the deliver_tx code and log) when
check_tx succeeds and deliver_tx's code is nonzero; and is successful
exactly when both codes are zero. -/
theorem store_code_two_phase (r : TxCommitResponse) :
    (r.check_tx.code ≠ 0 →
      check_broadcast r = .err ("check_tx failed: " ++ reprAbci r.check_tx)) ∧
    (r.check_tx.code = 0 → r.deliver_tx.code ≠ 0 →
      check_broadcast r = .err ("deliver_tx failed: " ++ reprAbci r.deliver_tx)) ∧
    (check_broadcast r = .ok r ↔ r.check_tx.code = 0 ∧ r.deliver_tx.code = 0) := by
  unfold check_broadcast
  refine ⟨fun h => by simp [h], fun h1 h2 => by simp [h1, h2], ?_⟩
  constructor
  · intro h
    by_cases h1 : r.check_tx.code = 0 <;> by_cases h2 : r.deliver_tx.code = 0 <;>
      simp [h1, h2] at h ⊢
  · rintro ⟨h1, h2⟩
    simp [h1, h2]

/-- C1 witness: the spec's crafted response — check_tx failing, deliver_tx
succeeding — is reported as a check_tx failure. -/
theorem store_code_two_phase_witness :
    check_broadcast ⟨⟨5, "insufficient fee"⟩, ⟨0, "ok"⟩, "HH"⟩ =
      .err ("check_tx failed: " ++ reprAbci ⟨5, "insufficient fee"⟩) :=
  (store_code_two_phase ⟨⟨5, "insufficient fee"⟩, ⟨0, "ok"⟩, "HH"⟩).1 (by decide)

/-- C3: key resolution from a fixed (mnemonic, derivation path) pair is
deterministic — two runs yield the same signing key, and hence under a
fixed address prefix the same account identity. -/
theorem from_mnemonic_deterministic (c : ExtCrypto) (phrase path hrp : String)
    (k1 k2 : Outcome (List Nat))
    (h1 : from_mnemonic c phrase path = k1)
    (h2 : from_mnemonic c phrase path = k2) :
    k1 = k2 ∧
    ∀ s1 s2, k1 = .ok s1 → k2 = .ok s2 →
      c.accountId (c.publicKey s1) hrp = c.accountId (c.publicKey s2) hrp := by
  subst h1
  subst h2
  refine ⟨rfl, fun s1 s2 e1 e2 => ?_⟩
  have he := e1.symm.trans e2
  cases he
  rfl

/-- C3 witness: two concrete resolutions of the same mnemonic and path
agree, key and account identity alike. -/
theorem from_mnemonic_deterministic_witness :
    from_mnemonic testCrypto "valid mnemonic" "m/44/118/0/0/0" =
      from_mnemonic testCrypto "valid mnemonic" "m/44/118/0/0/0" ∧
    ∀ s1 s2,
      from_mnemonic testCrypto "valid mnemonic" "m/44/118/0/0/0" = .ok s1 →
      from_mnemonic testCrypto "valid mnemonic" "m/44/118/0/0/0" = .ok s2 →
      testCrypto.accountId (testCrypto.publicKey s1) "wasm" =
        testCrypto.accountId (testCrypto.publicKey s2) "wasm" :=
  from_mnemonic_deterministic testCrypto "valid mnemonic" "m/44/118/0/0/0"
    "wasm" _ _ rfl rfl

/-- Signer resolution performs no network call. -/
theorem resolveSigner_no_network (c : ExtCrypto) (cfg : GlobalConfig)
    (signer_account : String) :
    ∀ s, Event.networkCall s ∉ (resolveSigner c cfg signer_account).2 := by
  intro s
  unfold resolveSigner
  split
  · simp
  · simp
  · split <;> simp

/-- When signer resolution returns a key, it derived key material. -/
theorem resolveSigner_ok_events (c : ExtCrypto) (cfg : GlobalConfig)
    (signer_account : String) (sk : List Nat) (evs : List Event)
    (h : resolveSigner c cfg signer_account = (.ok sk, evs)) :
    evs = [.keyDerivation] := by
  unfold resolveSigner at h
  split at h
  · simp at h
  · simp only [Prod.mk.injEq] at h
    exact h.2.symm
  · split at h <;> simp only [Prod.mk.injEq] at h
    · exact absurd h.1 (by simp)
    · exact h.2.symm

/-- C4 counterexample: with the artifact absent at the expected path, the
run does fail with the path-naming error and makes no network call — but
key derivation has already happened (signer resolution, ops.rs lines
95-102, precedes `read_wasm`, line 107), so the operation does not fail
"before any key derivation". -/
theorem store_code_missing_artifact_counterexample :
    (storeCode testCrypto testConfig [] "/proj" testChain "counter" "chain-1"
        100 200 0 "alice").outcome =
      .err "`/proj/artifacts/counter.wasm` not found, please build and optimize the contract before store code`" ∧
    Event.keyDerivation ∈
      (storeCode testCrypto testConfig [] "/proj" testChain "counter" "chain-1"
        100 200 0 "alice").events := by
  decide

/-- C4 amended: when the wasm artifact is absent at the expected path
`<root>/artifacts/<contract_name>.wasm`, `store_code` fails before any
network call occurs and the error names the expected path — but key
derivation has already been performed by then. -/
theorem store_code_missing_artifact (c : ExtCrypto) (cfg : GlobalConfig)
    (files : List (String × List Nat)) (root : String) (chain : ChainEnv)
    (contract_name chain_id : String)
    (gas_amount gas_limit timeout_height : Nat) (signer_account : String)
    (sk : List Nat) (evs : List Event) (sid : String)
    (hr : resolveSigner c cfg signer_account = (.ok sk, evs))
    (hid : c.accountId (c.publicKey sk) cfg.account_hrp = some sid)
    (hf : lookupBy files (wasmPath root contract_name) = none) :
    (storeCode c cfg files root chain contract_name chain_id gas_amount
        gas_limit timeout_height signer_account).outcome =
      .err ("`" ++ wasmPath root contract_name ++
        "` not found, please build and optimize the contract before store code`") ∧
    Event.keyDerivation ∈
      (storeCode c cfg files root chain contract_name chain_id gas_amount
        gas_limit timeout_height signer_account).events ∧
    ∀ s, Event.networkCall s ∉
      (storeCode c cfg files root chain contract_name chain_id gas_amount
        gas_limit timeout_height signer_account).events := by
  have hevs := resolveSigner_ok_events c cfg signer_account sk evs hr
  have hread : read_wasm files root contract_name =
      .err ("`" ++ wasmPath root contract_name ++
        "` not found, please build and optimize the contract before store code`") := by
    simp [read_wasm, hf]
  simp only [storeCode, hr, hid, hread]
  subst hevs
  simp

/-- C4 amended witness: a concrete run against an empty filesystem. -/
theorem store_code_missing_artifact_witness :
    (storeCode testCrypto testConfig [] "/proj" testChain "counter" "chain-2"
        100 200 0 "alice").outcome =
      .err ("`" ++ wasmPath "/proj" "counter" ++
        "` not found, please build and optimize the contract before store code`") ∧
    Event.keyDerivation ∈
      (storeCode testCrypto testConfig [] "/proj" testChain "counter" "chain-2"
        100 200 0 "alice").events ∧
    ∀ s, Event.networkCall s ∉
      (storeCode testCrypto testConfig [] "/proj" testChain "counter" "chain-2"
        100 200 0 "alice").events :=
  store_code_missing_artifact testCrypto testConfig [] "/proj" testChain
    "counter" "chain-2" 100 200 0 "alice" [7, 44] [.keyDerivation] "wasm1qxyz"
    (by decide) (by decide) (by decide)

/-- C5: a raw-private-key credential whose bytes are not a valid secp256k1
secret key does not produce a returned `InvalidKeyBytes` error: the code
`unwrap`s `SigningKey::from_bytes` (ops.rs line 99, marked
`// TODO: need fix`) and panics. -/
theorem store_code_raw_key_panics (c : ExtCrypto) (cfg : GlobalConfig)
    (files : List (String × List Nat)) (root : String) (chain : ChainEnv)
    (contract_name chain_id : String)
    (gas_amount gas_limit timeout_height : Nat) (signer_account : String)
    (pk : String)
    (h1 : lookupBy cfg.accounts signer_account = some (.fromPrivateKey pk))
    (h2 : c.skFromBytes (strBytes pk) = none) :
    (storeCode c cfg files root chain contract_name chain_id gas_amount
        gas_limit timeout_height signer_account).outcome =
      .panic "SigningKey::from_bytes failed (unwrap)" := by
  simp [storeCode, resolveSigner, h1, h2]

/-- C5 witness: the 8-byte key string "shortkey" is rejected by the
secp256k1 parser and the run panics. -/
theorem store_code_raw_key_panics_witness :
    (storeCode testCrypto testConfig testFiles "/proj" testChain "counter"
        "chain-1" 100 200 0 "bob").outcome =
      .panic "SigningKey::from_bytes failed (unwrap)" :=
  store_code_raw_key_panics testCrypto testConfig testFiles "/proj" testChain
    "counter" "chain-1" 100 200 0 "bob" "shortkey" (by decide) (by decide)

/-- C7: an unknown signer alias fails immediately: the whole run is the
`bail!` error naming the alias, with an empty event trace — in particular
no network call. -/
theorem store_code_unknown_signer (c : ExtCrypto) (cfg : GlobalConfig)
    (files : List (String × List Nat)) (root : String) (chain : ChainEnv)
    (contract_name chain_id : String)
    (gas_amount gas_limit timeout_height : Nat) (signer_account : String)
    (h : lookupBy cfg.accounts signer_account = none) :
    storeCode c cfg files root chain contract_name chain_id gas_amount
        gas_limit timeout_height signer_account =
      ⟨.err ("signer account: `" ++ signer_account ++ "` is not defined"),
       [], none, none, none⟩ := by
  simp [storeCode, resolveSigner, h]

/-- C7 witness: the alias "nobody" is not configured. -/
theorem store_code_unknown_signer_witness :
    storeCode testCrypto testConfig testFiles "/proj" testChain "counter"
        "chain-1" 100 200 0 "nobody" =
      ⟨.err "signer account: `nobody` is not defined", [], none, none, none⟩ :=
  store_code_unknown_signer testCrypto testConfig testFiles "/proj" testChain
    "counter" "chain-1" 100 200 0 "nobody" (by decide)

/-- C6 counterexample: with the malformed fee denom "ua", `store_code`
panics (`denom.parse().unwrap()`, ops.rs line 113) instead of returning an
`InvalidFeeDenom` error. -/
theorem store_code_bad_denom_counterexample :
    (storeCode testCrypto ⟨"wasm", "ua", "m/44/118/0/0/0", testAccounts⟩
        testFiles "/proj" testChain "counter" "chain-1" 100 200 0
        "alice").outcome =
      .panic "denom parse failed (unwrap)" := by
  decide

/-- C6 amended: transaction building itself never fails — with a parseable
denom the run always proceeds past fee and message construction to the
account query — but a malformed fee denom causes a panic (`unwrap` on the
parse), not a returned `InvalidFeeDenom` error. -/
theorem store_code_denom_behavior (c : ExtCrypto) (cfg : GlobalConfig)
    (files : List (String × List Nat)) (root : String) (chain : ChainEnv)
    (contract_name chain_id : String)
    (gas_amount gas_limit timeout_height : Nat) (signer_account : String)
    (sk : List Nat) (evs : List Event) (sid : String) (wasm : List Nat)
    (hr : resolveSigner c cfg signer_account = (.ok sk, evs))
    (hid : c.accountId (c.publicKey sk) cfg.account_hrp = some sid)
    (hw : lookupBy files (wasmPath root contract_name) = some wasm) :
    (c.validDenom cfg.denom = false →
      (storeCode c cfg files root chain contract_name chain_id gas_amount
          gas_limit timeout_height signer_account).outcome =
        .panic "denom parse failed (unwrap)") ∧
    (c.validDenom cfg.denom = true →
      Event.networkCall "account_query" ∈
        (storeCode c cfg files root chain contract_name chain_id gas_amount
          gas_limit timeout_height signer_account).events) := by
  have hread : read_wasm files root contract_name = .ok wasm := by
    simp [read_wasm, hw]
  constructor
  · intro hd
    simp [storeCode, hr, hid, hread, hd]
  · intro hd
    simp only [storeCode, hr, hid, hread, hd, if_true]
    cases ha : chain.account with
    | none => simp
    | some acc =>
      cases hc : c.validChainId chain_id with
      | false => simp
      | true =>
        cases hb : chain.broadcast with
        | none => simp
        | some resp =>
          cases hcb : check_broadcast resp <;> simp [hcb]

/-- C6 amended witness: concretely, the malformed denom "ua" panics, and
with the well-formed denom "uatom" the run reaches the account query. -/
theorem store_code_denom_behavior_witness :
    (testCrypto.validDenom "ua" = false →
      (storeCode testCrypto ⟨"wasm", "ua", "m/44/118/0/0/0", testAccounts⟩
          testFiles "/proj" testChain "counter" "chain-1" 100 200 0
          "alice").outcome =
        .panic "denom parse failed (unwrap)") ∧
    (testCrypto.validDenom "ua" = true →
      Event.networkCall "account_query" ∈
        (storeCode testCrypto ⟨"wasm", "ua", "m/44/118/0/0/0", testAccounts⟩
          testFiles "/proj" testChain "counter" "chain-1" 100 200 0
          "alice").events) :=
  store_code_denom_behavior testCrypto
    ⟨"wasm", "ua", "m/44/118/0/0/0", testAccounts⟩ testFiles "/proj" testChain
    "counter" "chain-1" 100 200 0 "alice" [7, 44] [.keyDerivation] "wasm1qxyz"
    [0, 97, 115, 109] (by decide) (by decide) (by decide)

/-- C8 counterexample: a fully successful run against a node that reports
an empty transaction hash still returns plain success — `store_code`
returns `Ok(())` (ops.rs line 169) and discards the commit response
(line 125); no non-empty transaction hash is returned to the caller. -/
theorem store_code_success_empty_hash_counterexample :
    (storeCode testCrypto testConfig testFiles "/proj"
        ⟨some ⟨5, 9⟩, some ⟨⟨0, ""⟩, ⟨0, ""⟩, ""⟩⟩ "counter" "chain-1" 100 200
        0 "alice").outcome = .ok () ∧
    (storeCode testCrypto testConfig testFiles "/proj"
        ⟨some ⟨5, 9⟩, some ⟨⟨0, ""⟩, ⟨0, ""⟩, ""⟩⟩ "counter" "chain-1" 100 200
        0 "alice").response = some ⟨⟨0, ""⟩, ⟨0, ""⟩, ""⟩ := by
  decide

/-- C8 amended: on a fully successful deploy (signer resolves, account id
derives, artifact present, denom and chain id parse, account query
answers, both broadcast phases succeed), `store_code` succeeds — but its
return value is unit: the commit response, hash included, is dropped and
nothing checks the hash is non-empty. -/
theorem store_code_success_returns_unit (c : ExtCrypto) (cfg : GlobalConfig)
    (files : List (String × List Nat)) (root : String) (chain : ChainEnv)
    (contract_name chain_id : String)
    (gas_amount gas_limit timeout_height : Nat) (signer_account : String)
    (sk : List Nat) (evs : List Event) (sid : String) (wasm : List Nat)
    (acc : BaseAccount) (resp : TxCommitResponse)
    (hr : resolveSigner c cfg signer_account = (.ok sk, evs))
    (hid : c.accountId (c.publicKey sk) cfg.account_hrp = some sid)
    (hw : lookupBy files (wasmPath root contract_name) = some wasm)
    (hd : c.validDenom cfg.denom = true)
    (ha : chain.account = some acc)
    (hc : c.validChainId chain_id = true)
    (hb : chain.broadcast = some resp)
    (h1 : resp.check_tx.code = 0) (h2 : resp.deliver_tx.code = 0) :
    (storeCode c cfg files root chain contract_name chain_id gas_amount
        gas_limit timeout_height signer_account).outcome = .ok () ∧
    (storeCode c cfg files root chain contract_name chain_id gas_amount
        gas_limit timeout_height signer_account).response = some resp := by
  have hread : read_wasm files root contract_name = .ok wasm := by
    simp [read_wasm, hw]
  simp [storeCode, hr, hid, hread, hd, ha, hc, hb, check_broadcast, h1, h2]

/-- C8 amended witness: the concrete healthy-node run succeeds with unit. -/
theorem store_code_success_returns_unit_witness :
    (storeCode testCrypto testConfig testFiles "/proj" testChain "counter"
        "chain-1" 100 200 0 "alice").outcome = .ok () ∧
    (storeCode testCrypto testConfig testFiles "/proj" testChain "counter"
        "chain-1" 100 200 0 "alice").response =
      some ⟨⟨0, ""⟩, ⟨0, ""⟩, "CAFE"⟩ :=
  store_code_success_returns_unit testCrypto testConfig testFiles "/proj"
    testChain "counter" "chain-1" 100 200 0 "alice" [7, 44] [.keyDerivation]
    "wasm1qxyz" [0, 97, 115, 109] ⟨5, 9⟩ ⟨⟨0, ""⟩, ⟨0, ""⟩, "CAFE"⟩
    (by decide) (by decide) (by decide) (by decide) (by decide) (by decide)
    (by decide) (by decide) (by decide)

/-- C9: in any run that reaches transaction building (signer resolved,
account id derived, artifact read, denom parsed, account query answered),
the body built for broadcast holds exactly one message — the store-code
message wrapping the wasm read from the artifact, with the signer's
account id as sender and the instantiate-permission field unset. -/
theorem store_code_body_single_message (c : ExtCrypto) (cfg : GlobalConfig)
    (files : List (String × List Nat)) (root : String) (chain : ChainEnv)
    (contract_name chain_id : String)
    (gas_amount gas_limit timeout_height : Nat) (signer_account : String)
    (sk : List Nat) (evs : List Event) (sid : String) (wasm : List Nat)
    (acc : BaseAccount)
    (hr : resolveSigner c cfg signer_account = (.ok sk, evs))
    (hid : c.accountId (c.publicKey sk) cfg.account_hrp = some sid)
    (hw : lookupBy files (wasmPath root contract_name) = some wasm)
    (hd : c.validDenom cfg.denom = true)
    (ha : chain.account = some acc) :
    (storeCode c cfg files root chain contract_name chain_id gas_amount
        gas_limit timeout_height signer_account).builtBody =
      some (built_body (msg_any (built_msg sid wasm)) timeout_height) ∧
    (built_body (msg_any (built_msg sid wasm)) timeout_height).messages.length
      = 1 ∧
    (built_body (msg_any (built_msg sid wasm)) timeout_height).messages =
      [msg_any (built_msg sid wasm)] ∧
    (built_msg sid wasm).sender = sid ∧
    (built_msg sid wasm).wasm_byte_code = wasm ∧
    (built_msg sid wasm).instantiate_permission = none := by
  have hread : read_wasm files root contract_name = .ok wasm := by
    simp [read_wasm, hw]
  refine ⟨?_, by simp [built_body], by simp [built_body], rfl, rfl, rfl⟩
  simp only [storeCode, hr, hid, hread, hd, if_true]
  cases hc : c.validChainId chain_id with
  | false => simp [ha]
  | true =>
    cases hb : chain.broadcast with
    | none => simp [ha]
    | some resp =>
      cases hcb : check_broadcast resp <;> simp [ha, hcb]

/-- C9 witness: the concrete healthy-node run builds exactly that body. -/
theorem store_code_body_single_message_witness :
    (storeCode testCrypto testConfig testFiles "/proj" testChain "counter"
        "chain-1" 100 200 0 "alice").builtBody =
      some (built_body (msg_any (built_msg "wasm1qxyz" [0, 97, 115, 109])) 0) ∧
    (built_body (msg_any (built_msg "wasm1qxyz" [0, 97, 115, 109]))
        0).messages.length = 1 ∧
    (built_body (msg_any (built_msg "wasm1qxyz" [0, 97, 115, 109]))
        0).messages = [msg_any (built_msg "wasm1qxyz" [0, 97, 115, 109])] ∧
    (built_msg "wasm1qxyz" [0, 97, 115, 109]).sender = "wasm1qxyz" ∧
    (built_msg "wasm1qxyz" [0, 97, 115, 109]).wasm_byte_code =
      [0, 97, 115, 109] ∧
    (built_msg "wasm1qxyz" [0, 97, 115, 109]).instantiate_permission = none :=
  store_code_body_single_message testCrypto testConfig testFiles "/proj"
    testChain "counter" "chain-1" 100 200 0 "alice" [7, 44] [.keyDerivation]
    "wasm1qxyz" [0, 97, 115, 109] ⟨5, 9⟩ (by decide) (by decide) (by decide)
    (by decide) (by decide)

/-- C10: whenever a run of `store_code` builds a transaction body at all,
that body's memo is the empty string — `tx::Body::new(vec![...], "", ..)`
(ops.rs line 132) offers no way to pass a memo. -/
theorem store_code_memo_empty (c : ExtCrypto) (cfg : GlobalConfig)
    (files : List (String × List Nat)) (root : String) (chain : ChainEnv)
    (contract_name chain_id : String)
    (gas_amount gas_limit timeout_height : Nat) (signer_account : String)
    (b : TxBody)
    (h : (storeCode c cfg files root chain contract_name chain_id gas_amount
        gas_limit timeout_height signer_account).builtBody = some b) :
    b.memo = "" := by
  rcases hr : resolveSigner c cfg signer_account with ⟨o, evs⟩
  cases o with
  | err m => simp [storeCode, hr] at h
  | panic m => simp [storeCode, hr] at h
  | ok sk =>
    cases hid : c.accountId (c.publicKey sk) cfg.account_hrp with
    | none => simp [storeCode, hr, hid] at h
    | some sid =>
      cases hw : read_wasm files root contract_name with
      | err m => simp [storeCode, hr, hid, hw] at h
      | panic m => simp [storeCode, hr, hid, hw] at h
      | ok wasm =>
        cases hd : c.validDenom cfg.denom with
        | false => simp [storeCode, hr, hid, hw, hd] at h
        | true =>
          cases ha : chain.account with
          | none => simp [storeCode, hr, hid, hw, hd, ha] at h
          | some acc =>
            cases hc : c.validChainId chain_id with
            | false =>
              simp [storeCode, hr, hid, hw, hd, ha, hc] at h
              subst h
              rfl
            | true =>
              cases hb : chain.broadcast with
              | none =>
                simp [storeCode, hr, hid, hw, hd, ha, hc, hb] at h
                subst h
                rfl
              | some resp =>
                cases hcb : check_broadcast resp <;>
                  simp [storeCode, hr, hid, hw, hd, ha, hc, hb, hcb] at h <;>
                  subst h <;> rfl

/-- C10 witness: the body built by the concrete healthy-node run has an
empty memo. -/
theorem store_code_memo_empty_witness :
    (built_body (msg_any (built_msg "wasm1qxyz" [0, 97, 115, 109])) 0).memo
      = "" :=
  store_code_memo_empty testCrypto testConfig testFiles "/proj" testChain
    "counter" "chain-1" 100 200 0 "alice"
    (built_body (msg_any (built_msg "wasm1qxyz" [0, 97, 115, 109])) 0)
    (by decide)
